import Mathlib

/-!
Verification development for the multi-stage agent orchestration / RAG
pipeline of the bad-scientist repository. The definitions below are shallow
embeddings of the repository's Python source: the pipeline of
`src/agents/async_crew.py`, the flow of `src/agents/crew.py`, the search
tools of `src/tools/search_cortex.py`, the document store of
`src/tools/document_processor.py`, the search service of
`src/tools/langchain/search_service.py`, the task graph of `src/crew.py`
and the LLM client of `src/custom_cortex_llm/snowflake_mistral_agents.py`.
External effects (the Snowflake backend, the model) are passed in as
explicit parameters; stateful code is explicit state passing and fallible
code returns `Except`.
-/

namespace BadScientist

/-- Python exception shapes relevant to the pipeline: the built-in errors the
code can raise or pass through, plus the error taxonomy named by the spec
(`StageExecutionError` among them) so that statements about wrapping can be
made. The repository defines none of the spec's custom error classes. -/
inductive PyErr
  | valueError (msg : String)
  | keyError (key : String)
  | sqlError (msg : String)
  | documentParseError (msg : String)
  | retrievalError (msg : String)
  | modelError (msg : String)
  | stageExecutionError (stage : String) (msg : String)
  deriving DecidableEq, Repr

/-- True exactly on the `stageExecutionError` shape. -/
def PyErr.isStageExecutionError : PyErr → Bool
  | .stageExecutionError _ _ => true
  | _ => false

/-- An observable external call made by the code: a Cortex model completion
(`SELECT snowflake.cortex.complete(?, ?)`) or a Cortex search service query. -/
inductive Event
  | complete (model prompt : String)
  | search (service query : String) (limit : Nat)
  deriving DecidableEq, Repr

/-- Number of model completions in a trace of events. -/
def countCompletions (events : List Event) : Nat :=
  (events.filter fun e => match e with
    | .complete _ _ => true
    | _ => false).length

/-- A parameterized SQL request as issued through `session.sql(text, params)`. -/
structure SqlRequest where
  text : String
  params : List String
  deriving DecidableEq, Repr

/-- One row returned by a Cortex search service, as consumed by the tools
(`doc_text` and `source` columns). -/
structure SearchResult where
  doc_text : String
  source : String
  deriving DecidableEq, Repr

/-! ## The LLM client: `src/custom_cortex_llm/snowflake_mistral_agents.py`. -/

/-- The content of one chat message: either scalar text or a nested list of
(role, content) sub-messages, mirroring the two message shapes
`_format_prompt` handles. -/
inductive MessageContent
  | text (s : String)
  | parts (subs : List (String × String))
  deriving DecidableEq, Repr

/-- One chat message: a role and its content. -/
structure ChatMessage where
  role : String
  content : MessageContent
  deriving DecidableEq, Repr

/-- The `messages` argument of `SnowflakeCortexLLM.completion`: either a bare
prompt string or a list of chat messages (`Union[str, List[Dict[str, Any]]]`). -/
inductive Messages
  | str (s : String)
  | list (ms : List ChatMessage)
  deriving DecidableEq, Repr

/-- Formatting of one nested sub-message inside `_format_prompt`: system and
user roles are rendered, any other role is dropped. -/
def formatSubMessage : String × String → List String
  | (role, content) =>
    if role = "system" then ["System: " ++ content]
    else if role = "user" then ["User: " ++ content]
    else []

/-- Formatting of one message inside `_format_prompt`: nested content walks
its sub-messages; simple content renders system, user and assistant roles and
drops any other. -/
def formatMessage (m : ChatMessage) : List String :=
  match m.content with
  | .parts subs => subs.flatMap formatSubMessage
  | .text s =>
    if m.role = "system" then ["System: " ++ s]
    else if m.role = "user" then ["User: " ++ s]
    else if m.role = "assistant" then ["Assistant: " ++ s]
    else []

/-- `SnowflakeCortexLLM._format_prompt`: a bare string is returned as is; a
message list is formatted per role and joined with newlines. -/
def formatPrompt : Messages → String
  | .str s => s
  | .list ms => String.intercalate "\n" (ms.flatMap formatMessage)

/-- The constructor state of `SnowflakeCortexLLM`: model name, temperature and
max-token fields stored on the instance. The temperature is an opaque value
here (the code never computes with it). -/
structure SnowflakeCortexLLMState where
  model_name : String
  temperature : Float
  max_tokens : Option Nat

/-- `SnowflakeCortexLLM.completion`: the SQL request issued to the backend.
The code builds `SELECT snowflake.cortex.complete(?, ?)` with parameters
`(self.model_name, prompt)`; the `model`, `temperature` and `max_tokens`
arguments are never read when forming the request. -/
def completionRequest (llm : SnowflakeCortexLLMState) (model : String)
    (messages : Messages) (temperature : Option Float)
    (maxTokens : Option Nat) : SqlRequest :=
  ⟨"SELECT snowflake.cortex.complete(?, ?)", [llm.model_name, formatPrompt messages]⟩

/-- `CrewSnowflakeLLM.call`: delegates to `completion` with
`model = "snowflake-cortex/" ++ model_name`, `messages = prompt`,
`temperature = self.temperature` and `max_tokens = self.max_tokens`. -/
def callRequest (llm : SnowflakeCortexLLMState) (prompt : String) : SqlRequest :=
  completionRequest llm ("snowflake-cortex/" ++ llm.model_name) (.str prompt)
    (some llm.temperature) llm.max_tokens

/-! ## The search tools: `src/tools/search_cortex.py`. -/

/-- `CortexSearchRequirementsTool._run` lines 112-115: the retrieved rows
joined into the context block of the tool's prompt. -/
def contextOfResults (results : List SearchResult) : String :=
  String.intercalate "\n\n"
    (results.map fun r => "Source: " ++ r.source ++ "\nContent: " ++ r.doc_text)

/-- `CortexSearchRequirementsTool._run` lines 117-125: the prompt the tool
sends to `snowflake.cortex.complete`. -/
def reqToolPrompt (context query : String) : String :=
  "\n        Based on the following context, extract and analyze the key technical requirements.\n        Make it short and clear in less than 50 words.\n\n        Context:\n        "
    ++ context
    ++ "\n\n        Question: "
    ++ query
    ++ "\n        "

/-- `CortexSearchRequirementsTool._run`: the trace of external calls of one
tool run — one search against the requirements service, then one model
completion over the tool's own prompt. -/
def reqToolRunEvents (results : List SearchResult) (query : String) : List Event :=
  [.search "req_docs_search_svc" query 5,
   .complete "mistral-large2" (reqToolPrompt (contextOfResults results) query)]

/-- `CortexSearchTechnicalTool._run` lines 150-155: which service the
`tech_stack` argument selects. The argument is `Optional[str]` and is compared
against the str-valued enum members, so only the exact strings "streamlit" and
"st_ref" select a service; anything else (the default `None` included) selects
none and the code raises `ValueError`. -/
def tsServiceName : Option String → Option String
  | some ts =>
    if ts = "streamlit" then some "streamlit_code_search_svc"
    else if ts = "st_ref" then some "streamlit_appgalery_search_svc"
    else none
  | none => none

/-- `CortexSearchTechnicalTool._run` lines 170-173: the retrieved rows joined
into the documentation block (only the `doc_text` column). -/
def techToolContext (results : List SearchResult) : String :=
  String.intercalate "\n\n" (results.map fun r => "Content: " ++ r.doc_text)

/-- `CortexSearchTechnicalTool._run` lines 175-182: the prompt the tool sends
to `snowflake.cortex.complete`. -/
def techToolPrompt (techStack context query : String) : String :=
  "\n        Based on the following "
    ++ techStack
    ++ " documentation, provide code implementation guidance.\n\n        Documentation:\n        "
    ++ context
    ++ "\n\n        Question: "
    ++ query
    ++ "\n        "

/-- `CortexSearchTechnicalTool._run`: validates `tech_stack`, then searches the
selected service and sends one completion. `svc` is the backend (ranked rows
per service and query), `oracle` the model's response to a prompt. The result
pairs the trace of external calls with the outcome. -/
def techToolRun (svc : String → String → List SearchResult)
    (oracle : String → String) (query docType : String)
    (techStack : Option String) : List Event × Except PyErr String :=
  match tsServiceName techStack with
  | none =>
    ([], .error (.valueError "tech_stack must be specified as either 'streamlit' or 'st_ref'"))
  | some serviceName =>
    let results := svc serviceName query
    let prompt := techToolPrompt (techStack.getD "") (techToolContext results) query
    ([.search serviceName query 5, .complete "mistral-large2" prompt],
     .ok (oracle prompt))

/-! ## The search service: `src/tools/langchain/search_service.py`. -/

/-- Modelled from the spec: the Cortex search backend ranks the stored chunks
of one service by relevance score for the query (ties broken stably by
insertion order) and returns the top `limit`. The backend itself is Snowflake
Cortex, outside this repository; only its contract is modelled. Stable
ranking is a stable insertion sort by score, descending. -/
def rankInsert (score : SearchResult → String → Nat) (query : String)
    (c : SearchResult) : List SearchResult → List SearchResult
  | [] => [c]
  | d :: ds =>
    if score d query < score c query then c :: d :: ds
    else d :: rankInsert score query c ds

/-- Modelled from the spec: stable ranking of a whole chunk list by score. -/
def rankChunks (score : SearchResult → String → Nat) (query : String) :
    List SearchResult → List SearchResult
  | [] => []
  | c :: cs => rankInsert score query c (rankChunks score query cs)

/-- `SearchService.search_documents`: looks the service up by name (a missing
service is a `KeyError` from the `cortex_search_services` collection), then
returns the backend's top-`limit` ranked rows for the query. `services` maps
service names to their stored chunks in insertion order; `columns` is the
projection list the code forwards to the backend. -/
def searchDocuments (score : SearchResult → String → Nat)
    (services : List (String × List SearchResult))
    (serviceName query : String) (columns : List String) (limit : Nat) :
    Except PyErr (List SearchResult) :=
  match services.lookup serviceName with
  | none => .error (.keyError serviceName)
  | some chunks => .ok ((rankChunks score query chunks).take limit)


/-! ## The async pipeline: `src/agents/async_crew.py`. The literal pieces of
each task's f-string description are named so that substring statements can
exhibit them. -/

/-- `requirements_task` description, text before the user prompt. -/
def reqSeg1 : String := "\n            OBJECTIVE: Extract and analyze comprehensive technical requirements for a Streamlit application.\n\n            CONTEXT:\n            User Request: "

/-- `requirements_task` description, text between the prompt and the
docs-uploaded flag. -/
def reqSeg2 : String := "\n            Additional Documents: "

/-- `requirements_task` description, text after the docs-uploaded flag. -/
def reqSeg3 : String := "\n\n            TASK STEPS:\n            1. Review Input Sources:\n               - Analyze the main user prompt\n               - If documents are provided, use Search Requirements tool\n               - Search with keywords from prompt using doc_type=\"requirements\"\n\n            2. Technical Requirements Analysis:\n               - Identify all Python-implementable components\n               - List required data sources and processing needs\n               - Specify required Streamlit UI components\n               - Note any performance or scalability requirements\n\n            FORMAT YOUR RESPONSE AS:\n            1. Technical Requirements: [List each requirement]\n            2. Data Requirements: [List data needs]\n            3. UI Components: [List Streamlit elements]\n            4. Integration Needs: [List dependencies]\n            5. Constraints: [List any limitations]\n            "

/-- `execute_streamlit_generation` lines 79-113: the rendered description of
`requirements_task`, an f-string over the user prompt and the docs-uploaded
flag. -/
def requirementsTaskDescription (prompt : String) (docsUploaded : Bool) : String :=
  reqSeg1 ++ prompt ++ reqSeg2 ++ (if docsUploaded then "Yes" else "No") ++ reqSeg3

/-- `data_task` description, text before the requirements output. -/
def dataSeg1 : String := "\n            OBJECTIVE: Analyze and map all data requirements to Snowflake data sources.\n            \n            CONTEXT:\n            Technical Requirements: "

/-- `data_task` description, text after the requirements output. -/
def dataSeg2 : String := "\n            \n            TASK STEPS:\n            1. Data Source Analysis:\n               - Review technical requirements\n               - Identify all data needs\n               - Map to Snowflake tables\n\n            2. Table Identification:\n               - For each data requirement, create detailed search\n               - Verify column availability and data types\n               - Document table relationships\n\n            3. Data Access Planning:\n               - Design efficient SQL queries\n               - Plan data transformations\n               - Consider performance optimization\n            "

/-- `execute_streamlit_generation` lines 128-158: the rendered description of
`data_task`, an f-string over the requirements stage output. -/
def dataTaskDescription (requirementsResult : String) : String :=
  dataSeg1 ++ requirementsResult ++ dataSeg2

/-- `patterns_task` description, text before the requirements output. -/
def patternsSeg1 : String := "\n            OBJECTIVE: Research and identify optimal patterns for Streamlit data visualization.\n            \n            CONTEXT:\n            Technical Requirements: "

/-- `patterns_task` description, text after the requirements output. -/
def patternsSeg2 : String := "\n            \n            TASK STEPS:\n            1. Pattern Research:\n               - Research Streamlit visualization components\n               - Identify best practices for similar applications\n               - Study performance optimization patterns\n\n            2. Component Analysis:\n               - Evaluate suitable visualization components\n               - Analyze interaction patterns\n               - Research caching strategies\n\n            3. Integration Patterns:\n               - Study Snowflake-Streamlit integration patterns\n               - Research data loading optimizations\n               - Analyze state management approaches\n            "

/-- `execute_streamlit_generation` lines 160-190: the rendered description of
`patterns_task`, an f-string over the requirements stage output. -/
def patternsTaskDescription (requirementsResult : String) : String :=
  patternsSeg1 ++ requirementsResult ++ patternsSeg2

/-- `code_task` description, text before the requirements output. -/
def codeSeg1 : String := "\n            OBJECTIVE: Generate production-ready Streamlit application code.\n            \n            INPUTS:\n            1. Requirements: "

/-- `code_task` description, between the requirements and data outputs. -/
def codeSeg2 : String := "\n            2. Data Analysis: "

/-- `code_task` description, between the data and patterns outputs. -/
def codeSeg3 : String := "\n            3. Patterns: "

/-- `code_task` description, text after the patterns output. -/
def codeSeg4 : String := "\n            \n            DEVELOPMENT REQUIREMENTS:\n            1. Code Structure:\n               - Single page application\n               - Clear section organization\n               - Proper error handling\n               - Interactive Widget\n\n            2. Data Handling:\n               - Use only specified Snowflake tables\n               - Implement proper data type conversions\n               - Handle missing data appropriately\n               - Implement caching where appropriate\n\n            3. Error Prevention:\n               - Assume all credentials are stored in .env\n               - Add comprehensive error handling\n               - Validate all user inputs\n               - Handle edge cases\n               - Implement proper type checking\n            "

/-- `execute_streamlit_generation` lines 215-251: the rendered description of
`code_task`, an f-string over the requirements, data-analysis and patterns
stage outputs. -/
def codeTaskDescription (requirementsResult dataResult patternsResult : String) : String :=
  codeSeg1 ++ requirementsResult ++ codeSeg2 ++ dataResult ++ codeSeg3
    ++ patternsResult ++ codeSeg4

/-- The result model of the async pipeline (`FlowResult` in
`src/agents/async_crew.py`): one field per stage output; `reference_patterns`
is a dict, modelled as an association list. -/
structure FlowResult where
  requirements : String
  data_analysis : String
  reference_patterns : List (String × String)
  streamlit_components : String
  final_code : String
  deriving DecidableEq, Repr

/-- `execute_streamlit_generation`: ingest the uploaded document when one was
supplied, then run the requirements crew, the data and patterns crews (both
consuming the requirements output; `asyncio.gather` requires both to
succeed), then the code crew consuming all three outputs, and only then build
the `FlowResult` — the one `except` clause logs and re-raises, so every
failure propagates and no result is built. `ingest` is the outcome of
`DocumentProcessor.process_document`; `oracle` maps a rendered task
description to that crew's outcome. -/
def executeStreamlitGeneration (ingest : Except PyErr Unit)
    (oracle : String → Except PyErr String) (prompt : String)
    (docsUploaded : Bool) (docsPath : Option String) : Except PyErr FlowResult :=
  match (if docsUploaded && docsPath.isSome then ingest else Except.ok ()) with
  | .error e => .error e
  | .ok _ =>
    match oracle (requirementsTaskDescription prompt docsUploaded) with
    | .error e => .error e
    | .ok requirementsResult =>
      match oracle (dataTaskDescription requirementsResult),
            oracle (patternsTaskDescription requirementsResult) with
      | .error e, _ => .error e
      | .ok _, .error e => .error e
      | .ok dataResult, .ok patternsResult =>
        match oracle (codeTaskDescription requirementsResult dataResult
            patternsResult) with
        | .error e => .error e
        | .ok codeResult =>
          .ok ⟨requirementsResult, dataResult, [("data", patternsResult)],
               "", codeResult⟩

/-! ## The flow variant: `src/agents/crew.py`. -/

/-- Flow requirements task description, text before the user prompt. -/
def flowReqSeg1 : String := "Extract and analyze technical requirements for Streamlit app implementation.\n\n                Input: "

/-- Flow requirements task description, between the prompt and the flag. -/
def flowReqSeg2 : String := "\n                Documents uploaded: "

/-- Flow requirements task description, text after the flag. -/
def flowReqSeg3 : String := "\n\n                Instructions:\n                1. If documents are uploaded (docs_uploaded=True):\n                - Use the Search Requirements Documents tool with relevant keywords from the prompt\n                - Use doc_type=\"requirements\" for the search\n                - Extract technical requirements from search results\n                2. If no documents (docs_uploaded=False):\n                - Analyze the input prompt directly\n                3. For all cases:\n                - Focus ONLY on Python-implementable components\n                - List possible data needed and processing/analysis requirements\n                - Identify specific Streamlit UI elements needed"

/-- `StreamlitAppGenerationFlow.process_requirements` lines 88-103: the
rendered description of the requirements task, an f-string over the user
prompt and the docs-uploaded flag (a Python bool rendering as
`True`/`False`). -/
def flowRequirementsTaskDescription (prompt : String) (docsUploaded : Bool) : String :=
  flowReqSeg1 ++ prompt ++ flowReqSeg2
    ++ (if docsUploaded then "True" else "False") ++ flowReqSeg3

/-- `StreamlitAppGenerationFlow.process_requirements`: ingest the document
when one was supplied, then execute the requirements task; the `except`
clause logs and re-raises, so whatever error the ingestion or the task
raised leaves the stage unchanged. -/
def processRequirements (ingest : Except PyErr Unit)
    (oracle : String → Except PyErr String) (prompt : String)
    (docsUploaded : Bool) (docsPath : Option String) : Except PyErr String :=
  match (if docsUploaded && docsPath.isSome then ingest else Except.ok ()) with
  | .error e => .error e
  | .ok _ => oracle (flowRequirementsTaskDescription prompt docsUploaded)

/-! ## The document store: `src/tools/document_processor.py`. -/

/-- The document-type tags (`DocumentType` enum). -/
inductive DocumentType
  | REQUIREMENTS
  | STREAMLIT_DOCS
  | ST_REF_DOCS
  deriving DecidableEq, Repr

/-- The enum's value: the per-tag table-name stem. -/
def DocumentType.value : DocumentType → String
  | .REQUIREMENTS => "req_docs"
  | .STREAMLIT_DOCS => "streamlit_code"
  | .ST_REF_DOCS => "streamlit_appgalery"

/-- One row of a `<tag>_chunks` table as inserted by `_store_chunks`
(`doc_text`, `source`, `metadata`). -/
structure ChunkRow where
  doc_text : String
  source : String
  metadata : String
  deriving DecidableEq, Repr

/-- The chunk store: the rows of each tag's `<tag>_chunks` table. -/
def ChunkStore := DocumentType → List ChunkRow

/-- `DocumentProcessor._store_chunks`: truncates the tag's table, then batch
inserts the new chunks, each row carrying the chunk text, the source and the
literal metadata `\x7b\x7d`. With an empty chunk list the generated
`INSERT ... FROM VALUES` has an empty VALUES list and the statement fails. -/
def storeChunks (chunks : List String) (docType : DocumentType)
    (source : String) (store : ChunkStore) : Except PyErr ChunkStore :=
  if chunks.isEmpty then
    .error (.sqlError "INSERT INTO ... FROM VALUES with no value tuples")
  else
    .ok fun d =>
      if d = docType then chunks.map (fun c => ⟨c, source, "\x7b\x7d"⟩)
      else store d

/-! ## The task graph: `src/crew.py` `create_crew`. -/

/-- One CrewAI task as `create_crew` builds it, reduced to what bears on the
dependency graph: its name and the indices (into the task list) of the tasks
its `context` references. Descriptions, agents and tools do not affect the
graph. -/
structure TaskSpec where
  name : String
  contextIdx : List Nat
  deriving DecidableEq, Repr

/-- `create_crew` lines 76-157: the four tasks and their `context` wiring —
`requirement_task` (no context), `researcher_sklearn_task` (context:
requirement), `researcher_streamlit_task` (context: requirement, sklearn),
`coder_task` (context: all three). Each context entry references a task
defined strictly earlier. -/
def createCrewTasks : List TaskSpec :=
  [⟨"requirement_task", []⟩,
   ⟨"researcher_sklearn_task", [0]⟩,
   ⟨"researcher_streamlit_task", [0, 1]⟩,
   ⟨"coder_task", [0, 1, 2]⟩]

/-- The CrewAI process modes used by the repository. -/
inductive Process
  | sequential
  | hierarchical
  deriving DecidableEq, Repr

/-- A crew as `create_crew` returns it: agents, tasks, process mode. -/
structure CrewSpec where
  agents : List String
  tasks : List TaskSpec
  process : Process
  deriving DecidableEq, Repr

/-- `create_crew` lines 160-167: the crew is constructed directly from the
task list. No validation of the dependency graph is performed anywhere on
this path — the repository defines no `CyclicDependencyError` and contains no
acyclicity check — so construction succeeds for any task list. -/
def buildCrew (tasks : List TaskSpec) : Except PyErr CrewSpec :=
  .ok ⟨["requirement_agent", "researcher_agent", "coder_agent"], tasks, .sequential⟩

/-- The dependency graph of a task list: node `i` has an edge to each entry of
task `i`'s context list. -/
def graphOf (tasks : List TaskSpec) : List (List Nat) :=
  tasks.map TaskSpec.contextIdx

/-- Nodes reachable in at most `fuel` further expansion rounds from `s`. -/
def expandReach (g : List (List Nat)) : Nat → List Nat → List Nat
  | 0, s => s
  | fuel + 1, s =>
    expandReach g fuel ((s ++ s.flatMap fun i => (g.get? i).getD []).dedup)

/-- Whether the graph has a dependency cycle: some node reaches itself in at
least one step. -/
def graphHasCycle (g : List (List Nat)) : Bool :=
  (List.range g.length).any fun i =>
    (expandReach g g.length ((g.get? i).getD [])).contains i


/-! ## The document splitter. The configuration is embedded from
`DocumentProcessor._split_into_chunks`; the algorithm is langchain's
`RecursiveCharacterTextSplitter`, which is not part of this repository, so it
is modelled from the spec's description of it. -/

/-- Modelled from the spec: the hard character cut — with no separator left,
text is cut into windows of at most `size` characters, each window starting
`stride = size - overlap` characters after the previous one so that adjacent
windows share `overlap` characters. `fuel` bounds the recursion. -/
def hardCutAux (size stride : Nat) : Nat → List Char → List (List Char)
  | _, [] => []
  | 0, l => [l.take size]
  | fuel + 1, l =>
    if l.length ≤ size then [l]
    else l.take size :: hardCutAux size stride fuel (l.drop stride)

/-- Modelled from the spec: hard character cut of a whole text. -/
def hardCut (size overlap : Nat) (l : List Char) : List (List Char) :=
  hardCutAux size (size - overlap) l.length l

/-- Modelled from the spec: splitting on a (non-empty) separator sequence;
the separator itself is dropped. `fuel` bounds the scan. -/
def splitOnSubAux (sep : List Char) : Nat → List Char → List Char → List (List Char)
  | 0, rem, acc => [acc.reverse ++ rem]
  | fuel + 1, rem, acc =>
    match rem with
    | [] => [acc.reverse]
    | c :: cs =>
      if sep.isPrefixOf (c :: cs) then
        acc.reverse :: splitOnSubAux sep fuel ((c :: cs).drop sep.length) []
      else splitOnSubAux sep fuel cs (c :: acc)

/-- Modelled from the spec: split a text on a separator. -/
def splitOnSub (sep l : List Char) : List (List Char) :=
  splitOnSubAux sep l.length l []

/-- Modelled from the spec: greedy merging of boundary pieces (each already of
length at most `size`) into target-size chunks, rejoined with the separator
they were split on; when a chunk closes, up to `overlap` of its trailing
characters are carried into the next chunk, capped so the next chunk still
fits `size`. -/
def packPieces (size overlap : Nat) (sep : List Char) :
    List (List Char) → List Char → List (List Char)
  | [], acc => if acc.isEmpty then [] else [acc]
  | p :: ps, acc =>
    if acc.isEmpty then packPieces size overlap sep ps p
    else if acc.length + sep.length + p.length ≤ size then
      packPieces size overlap sep ps (acc ++ sep ++ p)
    else
      acc :: packPieces size overlap sep ps
        (if min overlap (size - (sep.length + p.length)) = 0 then p
         else acc.drop (acc.length - min overlap (size - (sep.length + p.length))) ++ sep ++ p)

/-- Modelled from the spec: the recursive boundary-aware splitter. Text that
fits `size` is a single chunk; otherwise the first separator is tried (the
empty separator meaning hard character cut), every piece still exceeding
`size` is split further with the remaining separators, and the bounded pieces
are merged back into target-size chunks with overlap. -/
def recSplit (size overlap : Nat) : List (List Char) → List Char → List (List Char)
  | [], text => if text.length ≤ size then [text] else hardCut size overlap text
  | s :: rest, text =>
    if text.length ≤ size then [text]
    else if s.isEmpty then hardCut size overlap text
    else
      packPieces size overlap s
        ((splitOnSub s text).flatMap fun p =>
          if p.length ≤ size then [p] else recSplit size overlap rest p) []

/-- `_split_into_chunks` line 84: the separator cascade handed to the
splitter — paragraph boundary, line boundary, word boundary, hard cut. -/
def separators : List String := ["\n\n", "\n", " ", ""]

/-- `DocumentProcessor._split_into_chunks`: the splitter as configured there —
`chunk_size` (caller-supplied, default 1000), `chunk_overlap=200`,
`length_function=len` and the separator cascade above. -/
def splitIntoChunks (text : String) (chunkSize : Nat) : List String :=
  (recSplit chunkSize 200 (separators.map String.data) text.data).map String.mk

/-- `_split_into_chunks` with its default `chunk_size = 1000`. -/
def splitIntoChunksDefault (text : String) : List String :=
  splitIntoChunks text 1000

/-- Every window the hard cut produces has at most `size` characters. -/
theorem hardCutAux_chunk_le (size stride : Nat) :
    ∀ (fuel : Nat) (l : List Char), ∀ c ∈ hardCutAux size stride fuel l,
      c.length ≤ size := by
  intro fuel
  induction fuel with
  | zero =>
    intro l c hc
    cases l with
    | nil => simp [hardCutAux] at hc
    | cons a as =>
      simp only [hardCutAux, List.mem_singleton] at hc
      subst hc
      exact List.length_take_le size (a :: as)
  | succ fuel ih =>
    intro l c hc
    cases l with
    | nil => simp [hardCutAux] at hc
    | cons a as =>
      simp only [hardCutAux] at hc
      by_cases h : (a :: as).length ≤ size
      · rw [if_pos h] at hc
        simp only [List.mem_singleton] at hc
        subst hc
        exact h
      · rw [if_neg h] at hc
        rcases List.mem_cons.mp hc with h1 | h2
        · subst h1
          exact List.length_take_le size (a :: as)
        · exact ih _ c h2

/-- Every window `hardCut` produces has at most `size` characters. -/
theorem hardCut_chunk_le (size overlap : Nat) (l : List Char) :
    ∀ c ∈ hardCut size overlap l, c.length ≤ size :=
  hardCutAux_chunk_le size (size - overlap) l.length l

/-- Merging size-bounded pieces only produces size-bounded chunks. -/
theorem packPieces_chunk_le (size overlap : Nat) (sep : List Char) :
    ∀ (ps : List (List Char)) (acc : List Char),
      (∀ p ∈ ps, p.length ≤ size) → acc.length ≤ size →
      ∀ c ∈ packPieces size overlap sep ps acc, c.length ≤ size := by
  intro ps
  induction ps with
  | nil =>
    intro acc _ hacc c hc
    by_cases h : acc.isEmpty
    · simp [packPieces, h] at hc
    · simp only [packPieces, h, Bool.false_eq_true, if_false,
        List.mem_singleton] at hc
      subst hc
      exact hacc
  | cons p ps ih =>
    intro acc hps hacc c hc
    have hp : p.length ≤ size := hps p (List.mem_cons_self p ps)
    have hrest : ∀ q ∈ ps, q.length ≤ size :=
      fun q hq => hps q (List.mem_cons_of_mem p hq)
    rw [packPieces] at hc
    by_cases hempty : acc.isEmpty
    · rw [if_pos hempty] at hc
      exact ih p hrest hp c hc
    · rw [if_neg hempty] at hc
      by_cases hfit : acc.length + sep.length + p.length ≤ size
      · rw [if_pos hfit] at hc
        refine ih _ hrest ?_ c hc
        simp only [List.length_append]
        omega
      · rw [if_neg hfit] at hc
        rcases List.mem_cons.mp hc with h1 | h2
        · subst h1
          exact hacc
        · refine ih _ hrest ?_ c h2
          by_cases hk : min overlap (size - (sep.length + p.length)) = 0
          · simpa [hk] using hp
          · have h1 : min overlap (size - (sep.length + p.length))
                ≤ size - (sep.length + p.length) := Nat.min_le_right _ _
            simp only [hk, if_false, List.length_append, List.length_drop]
            omega

/-- Every chunk the recursive splitter produces has at most `size`
characters. -/
theorem recSplit_chunk_le (size overlap : Nat) :
    ∀ (seps : List (List Char)) (text : List Char),
      ∀ c ∈ recSplit size overlap seps text, c.length ≤ size := by
  intro seps
  induction seps with
  | nil =>
    intro text c hc
    rw [recSplit] at hc
    by_cases h : text.length ≤ size
    · rw [if_pos h] at hc
      simp only [List.mem_singleton] at hc
      subst hc
      exact h
    · rw [if_neg h] at hc
      exact hardCut_chunk_le size overlap text c hc
  | cons s rest ih =>
    intro text c hc
    rw [recSplit] at hc
    by_cases h : text.length ≤ size
    · rw [if_pos h] at hc
      simp only [List.mem_singleton] at hc
      subst hc
      exact h
    · rw [if_neg h] at hc
      by_cases hs : s.isEmpty
      · rw [if_pos hs] at hc
        exact hardCut_chunk_le size overlap text c hc
      · rw [if_neg hs] at hc
        refine packPieces_chunk_le size overlap s _ [] ?_ (by simp) c hc
        intro p hp
        rcases List.mem_flatMap.mp hp with ⟨q, hq, hpq⟩
        by_cases hql : q.length ≤ size
        · rw [if_pos hql] at hpq
          simp only [List.mem_singleton] at hpq
          subst hpq
          exact hql
        · rw [if_neg hql] at hpq
          exact ih q p hpq


/-- Modelled from the spec: one stage execution per §4.3 — render the
template, optionally exercise the declared retrieval capability (here the
requirements search tool, whose trace is embedded from
`CortexSearchRequirementsTool._run`), then one model call with the fully
rendered prompt (the request `SnowflakeCortexLLM.completion` issues). -/
def stageExecutionEvents (usesTool : Bool) (toolResults : List SearchResult)
    (toolQuery renderedPrompt modelName : String) : List Event :=
  (if usesTool then reqToolRunEvents toolResults toolQuery else [])
    ++ [.complete modelName renderedPrompt]

/-! ## Claims -/

/-- C1: `execute_streamlit_generation` either raises or returns a
`FlowResult` carrying every declared stage's output: whenever it returns
`ok r`, every stage ran and succeeded, and `r.requirements`,
`r.data_analysis`, `r.reference_patterns` and `r.final_code` are exactly
those stage outputs — no missing or partially filled field is possible. -/
theorem c1_pipeline_atomic (ingest : Except PyErr Unit)
    (oracle : String → Except PyErr String) (prompt : String)
    (docsUploaded : Bool) (docsPath : Option String) (r : FlowResult)
    (h : executeStreamlitGeneration ingest oracle prompt docsUploaded docsPath
      = Except.ok r) :
    ∃ pa : String,
      oracle (requirementsTaskDescription prompt docsUploaded)
        = Except.ok r.requirements ∧
      oracle (dataTaskDescription r.requirements) = Except.ok r.data_analysis ∧
      oracle (patternsTaskDescription r.requirements) = Except.ok pa ∧
      oracle (codeTaskDescription r.requirements r.data_analysis pa)
        = Except.ok r.final_code ∧
      r.reference_patterns = [("data", pa)] ∧
      r.streamlit_components = "" := by
  unfold executeStreamlitGeneration at h
  split at h
  · simp at h
  · split at h
    · simp at h
    · rename_i rq h1
      split at h
      · simp at h
      · simp at h
      · rename_i da pa h2 h3
        split at h
        · simp at h
        · rename_i cd h4
          cases h
          exact ⟨pa, h1, h2, h3, h4, rfl, rfl⟩

/-- C1 witness: a run over a constant model outcome returns the complete
result bundle, and the theorem's conclusion holds there. -/
theorem c1_pipeline_atomic_witness :
    executeStreamlitGeneration (Except.ok ()) (fun _ => Except.ok "A") "demo"
        false none = Except.ok ⟨"A", "A", [("data", "A")], "", "A"⟩ ∧
    ∃ pa : String,
      (Except.ok "A" : Except PyErr String) = Except.ok "A" ∧
      (Except.ok "A" : Except PyErr String) = Except.ok "A" ∧
      (Except.ok "A" : Except PyErr String) = Except.ok pa ∧
      (Except.ok "A" : Except PyErr String) = Except.ok "A" ∧
      ([("data", "A")] : List (String × String)) = [("data", pa)] ∧
      ("" : String) = "" :=
  ⟨rfl, c1_pipeline_atomic (Except.ok ()) (fun _ => Except.ok "A") "demo" false
    none ⟨"A", "A", [("data", "A")], "", "A"⟩ rfl⟩

/-- C2: in the diamond pipeline every dependent stage's rendered prompt
contains each of its dependencies' outputs verbatim as a substring: the
data-mapping and pattern-research prompts contain the requirements output,
and the code-generation prompt contains the requirements, data-analysis and
patterns outputs. -/
theorem c2_prompts_contain_upstream_outputs (rq da pa : String) :
    (∃ pre suf, dataTaskDescription rq = pre ++ rq ++ suf) ∧
    (∃ pre suf, patternsTaskDescription rq = pre ++ rq ++ suf) ∧
    (∃ pre suf, codeTaskDescription rq da pa = pre ++ rq ++ suf) ∧
    (∃ pre suf, codeTaskDescription rq da pa = pre ++ da ++ suf) ∧
    (∃ pre suf, codeTaskDescription rq da pa = pre ++ pa ++ suf) := by
  refine ⟨⟨dataSeg1, dataSeg2, rfl⟩, ⟨patternsSeg1, patternsSeg2, rfl⟩,
    ⟨codeSeg1, codeSeg2 ++ da ++ codeSeg3 ++ pa ++ codeSeg4, ?_⟩,
    ⟨codeSeg1 ++ rq ++ codeSeg2, codeSeg3 ++ pa ++ codeSeg4, ?_⟩,
    ⟨codeSeg1 ++ rq ++ codeSeg2 ++ da ++ codeSeg3, codeSeg4, ?_⟩⟩ <;>
    simp only [codeTaskDescription, String.append_assoc]

/-- C3 counterexample: a stage execution that exercises its retrieval
capability issues two model completions, because the search tool itself calls
`snowflake.cortex.complete` (search_cortex.py lines 127-130) in addition to
the stage's own model call — refuting the claim that no stage execution
results in two or more completions. -/
theorem c3_counterexample :
    countCompletions (stageExecutionEvents true [] "sales tables"
      "rendered stage prompt" "mistral-large2") = 2 := rfl

/-- C3 (amended): per stage execution the stage's own path issues exactly one
model completion; when the stage also exercises its retrieval capability via
the requirements search tool, the tool issues one further completion of its
own, so that execution carries two model completions. -/
theorem c3_model_call_count (results : List SearchResult)
    (toolQuery renderedPrompt modelName : String) :
    countCompletions
        (stageExecutionEvents false results toolQuery renderedPrompt modelName)
      = 1 ∧
    countCompletions
        (stageExecutionEvents true results toolQuery renderedPrompt modelName)
      = 2 :=
  ⟨rfl, rfl⟩

/-- C4: ingestion is replace-not-append — `_store_chunks` truncates the tag's
table and inserts the new chunks, so after one store the tag holds exactly
the new rows, other tags are untouched, re-storing the same chunks leaves
the store unchanged, and the chunk count equals one ingestion's worth. -/
theorem c4_ingest_replaces (chunks : List String) (d : DocumentType)
    (source : String) (store : ChunkStore) (hne : chunks ≠ []) :
    ∃ st1 : ChunkStore,
      storeChunks chunks d source store = Except.ok st1 ∧
      st1 d = chunks.map (fun c => ⟨c, source, "\x7b\x7d"⟩) ∧
      (∀ d2, d2 ≠ d → st1 d2 = store d2) ∧
      storeChunks chunks d source st1 = Except.ok st1 ∧
      (st1 d).length = chunks.length := by
  have hic : chunks.isEmpty = false := by
    cases chunks with
    | nil => exact absurd rfl hne
    | cons a as => rfl
  refine ⟨fun d2 =>
      if d2 = d then chunks.map (fun c => ⟨c, source, "\x7b\x7d"⟩) else store d2,
    ?_, ?_, ?_, ?_, ?_⟩
  · simp [storeChunks, hic]
  · simp
  · intro d2 h2
    simp [h2]
  · simp only [storeChunks, hic, Bool.false_eq_true, if_false]
    congr 1
    funext d2
    by_cases h2 : d2 = d
    · subst h2
      simp
    · simp [h2]
  · simp

/-- C4 witness: storing two chunks for the requirements tag into an empty
store satisfies every conjunct of the theorem. -/
theorem c4_ingest_replaces_witness :
    (["alpha", "beta"] : List String) ≠ [] ∧
    ∃ st1 : ChunkStore,
      storeChunks ["alpha", "beta"] DocumentType.REQUIREMENTS "doc.pdf"
          (fun _ => []) = Except.ok st1 ∧
      st1 DocumentType.REQUIREMENTS
        = (["alpha", "beta"] : List String).map
            (fun c => ⟨c, "doc.pdf", "\x7b\x7d"⟩) ∧
      (∀ d2, d2 ≠ DocumentType.REQUIREMENTS →
        st1 d2 = (fun _ => ([] : List ChunkRow)) d2) ∧
      storeChunks ["alpha", "beta"] DocumentType.REQUIREMENTS "doc.pdf" st1
        = Except.ok st1 ∧
      (st1 DocumentType.REQUIREMENTS).length
        = (["alpha", "beta"] : List String).length :=
  ⟨by simp, c4_ingest_replaces ["alpha", "beta"] DocumentType.REQUIREMENTS
    "doc.pdf" (fun _ => []) (by simp)⟩

/-- C5 counterexample: a two-task graph in which each task's context
references the other is a dependency cycle, yet crew construction succeeds
and raises nothing at build time — `create_crew` performs no acyclicity
validation and the repository defines no `CyclicDependencyError` — refuting
the claim that such a construction raises `CyclicDependencyError`. -/
theorem c5_counterexample :
    graphHasCycle (graphOf [⟨"A", [1]⟩, ⟨"B", [0]⟩]) = true ∧
    buildCrew [⟨"A", [1]⟩, ⟨"B", [0]⟩]
      = Except.ok ⟨["requirement_agent", "researcher_agent", "coder_agent"],
          [⟨"A", [1]⟩, ⟨"B", [0]⟩], Process.sequential⟩ :=
  ⟨by decide, rfl⟩

/-- C5 (amended): crew construction never fails for any task list — the code
has no cycle validation to trigger — and the graph `create_crew` actually
builds is acyclic by construction: every task's context references only
strictly earlier tasks, and the cycle test on it is false. -/
theorem c5_no_cycle_validation_and_acyclic :
    (∀ tasks : List TaskSpec, buildCrew tasks
      = Except.ok ⟨["requirement_agent", "researcher_agent", "coder_agent"],
          tasks, Process.sequential⟩) ∧
    graphHasCycle (graphOf createCrewTasks) = false ∧
    (∀ i : Fin createCrewTasks.length,
      ∀ j ∈ (createCrewTasks.get i).contextIdx, j < i.val) :=
  ⟨fun _ => rfl, by decide, by decide⟩

/-- C6: searching a service whose tag has zero ingested chunks returns the
empty result sequence — `ok []`, never an error — and the requirements tool
then proceeds with an empty context block. -/
theorem c6_empty_tag_search (score : SearchResult → String → Nat)
    (services : List (String × List SearchResult))
    (serviceName query : String) (columns : List String) (limit : Nat)
    (h : services.lookup serviceName = some []) :
    searchDocuments score services serviceName query columns limit
      = Except.ok [] ∧ contextOfResults [] = "" := by
  unfold searchDocuments
  rw [h]
  exact ⟨by simp [rankChunks], rfl⟩

/-- C6 witness: the requirements service with an empty chunk list. -/
theorem c6_empty_tag_search_witness :
    ([("req_docs_search_svc", [])] : List (String × List SearchResult)).lookup
        "req_docs_search_svc" = some [] ∧
    (searchDocuments (fun _ _ => 0) [("req_docs_search_svc", [])]
        "req_docs_search_svc" "authentication" ["doc_text", "source"] 5
      = Except.ok [] ∧ contextOfResults [] = "") :=
  ⟨rfl, c6_empty_tag_search (fun _ _ => 0) [("req_docs_search_svc", [])]
    "req_docs_search_svc" "authentication" ["doc_text", "source"] 5 rfl⟩

/-- C7 counterexample: a model-call failure in the requirements stage leaves
`process_requirements` as the raw underlying exception — here a model error,
not a `StageExecutionError` — because the stage's `except` clause logs and
re-raises unchanged, refuting the claim that failures are wrapped. -/
theorem c7_counterexample :
    processRequirements (Except.ok ())
        (fun _ => Except.error (PyErr.modelError "model call timed out"))
        "build a dashboard" false none
      = Except.error (PyErr.modelError "model call timed out") ∧
    (PyErr.modelError "model call timed out").isStageExecutionError = false :=
  ⟨rfl, rfl⟩

/-- C7 (amended): stage failures propagate unwrapped — whatever error
`process_requirements` raises is exactly the error its ingestion step or its
model call raised; the code only logs and re-raises and never wraps an error
into a `StageExecutionError`. -/
theorem c7_errors_propagate_raw (ingest : Except PyErr Unit)
    (oracle : String → Except PyErr String) (prompt : String)
    (docsUploaded : Bool) (docsPath : Option String) (e : PyErr)
    (h : processRequirements ingest oracle prompt docsUploaded docsPath
      = Except.error e) :
    ingest = Except.error e ∨
      oracle (flowRequirementsTaskDescription prompt docsUploaded)
        = Except.error e := by
  unfold processRequirements at h
  split at h
  · rename_i e2 heq
    cases h
    by_cases hc : docsUploaded && docsPath.isSome
    · rw [if_pos hc] at heq
      exact Or.inl heq
    · rw [if_neg hc] at heq
      simp at heq
  · exact Or.inr h

/-- C7 witness: a failing model call at concrete inputs, with the raw error
observed by the caller. -/
theorem c7_errors_propagate_raw_witness :
    processRequirements (Except.ok ())
        (fun _ => Except.error (PyErr.valueError "bad")) "p" false none
      = Except.error (PyErr.valueError "bad") ∧
    ((Except.ok () : Except PyErr Unit) = Except.error (PyErr.valueError "bad") ∨
      (Except.error (PyErr.valueError "bad") : Except PyErr String)
        = Except.error (PyErr.valueError "bad")) :=
  ⟨rfl, c7_errors_propagate_raw (Except.ok ())
    (fun _ => Except.error (PyErr.valueError "bad")) "p" false none
    (PyErr.valueError "bad") rfl⟩

/-- C8: the document splitter as configured in `_split_into_chunks` is the
recursive boundary-aware splitter over the cascade paragraph boundary → line
boundary → word boundary → hard character cut, with default target chunk
size 1000 and overlap 200; text that already fits is returned as one chunk
and every produced chunk has at most 1000 characters. -/
theorem c8_splitter_configuration (text : String) :
    splitIntoChunksDefault text
      = (recSplit 1000 200 (separators.map String.data) text.data).map
          String.mk ∧
    separators = ["\n\n", "\n", " ", ""] ∧
    (text.length ≤ 1000 → splitIntoChunksDefault text = [text]) ∧
    (∀ c ∈ splitIntoChunksDefault text, c.length ≤ 1000) := by
  refine ⟨rfl, rfl, ?_, ?_⟩
  · intro h
    show (recSplit 1000 200 (separators.map String.data) text.data).map
        String.mk = [text]
    have hl : text.data.length ≤ 1000 := h
    rw [show separators.map String.data
      = ["\n\n".data, "\n".data, " ".data, "".data] from rfl]
    rw [recSplit, if_pos hl]
    rfl
  · intro c hc
    rcases List.mem_map.mp hc with ⟨dd, hdd, rfl⟩
    exact recSplit_chunk_le 1000 200 (separators.map String.data) text.data
      dd hdd

/-- C9: the technical-documentation search tool rejects every `tech_stack`
other than the exact strings "streamlit" and "st_ref" — the omitted/None
default included — with a `ValueError`, before issuing any search or model
call (its event trace is empty). -/
theorem c9_tech_stack_validated (svc : String → String → List SearchResult)
    (oracle : String → String) (query docType : String)
    (techStack : Option String) (h1 : techStack ≠ some "streamlit")
    (h2 : techStack ≠ some "st_ref") :
    techToolRun svc oracle query docType techStack
      = ([], Except.error (PyErr.valueError
          "tech_stack must be specified as either 'streamlit' or 'st_ref'")) := by
  unfold techToolRun
  cases techStack with
  | none => rfl
  | some ts =>
    have hts1 : ts ≠ "streamlit" := fun hh => h1 (by rw [hh])
    have hts2 : ts ≠ "st_ref" := fun hh => h2 (by rw [hh])
    simp only [tsServiceName, if_neg hts1, if_neg hts2]

/-- C9 witness: the default case, `tech_stack` omitted (None). -/
theorem c9_tech_stack_validated_witness :
    (none : Option String) ≠ some "streamlit" ∧
    (none : Option String) ≠ some "st_ref" ∧
    techToolRun (fun _ _ => []) (fun s => s) "caching" "technical_docs" none
      = ([], Except.error (PyErr.valueError
          "tech_stack must be specified as either 'streamlit' or 'st_ref'")) :=
  ⟨by simp, by simp,
    c9_tech_stack_validated (fun _ _ => []) (fun s => s) "caching"
      "technical_docs" none (by simp) (by simp)⟩

/-- C10: the completion request is insensitive to temperature and max-tokens:
two client states sharing a model name, with any call-site temperature and
max-token arguments, issue the identical SQL request, which carries exactly
the pair (model_name, rendered prompt); the same holds one level up through
`CrewSnowflakeLLM.call`. -/
theorem c10_request_ignores_sampling_params (mn : String) (t1 t2 : Float)
    (mt1 mt2 : Option Nat) (model : String) (messages : Messages)
    (ta tb : Option Float) (ma mb : Option Nat) (prompt : String) :
    completionRequest ⟨mn, t1, mt1⟩ model messages ta ma
      = completionRequest ⟨mn, t2, mt2⟩ model messages tb mb ∧
    completionRequest ⟨mn, t1, mt1⟩ model messages ta ma
      = ⟨"SELECT snowflake.cortex.complete(?, ?)", [mn, formatPrompt messages]⟩ ∧
    callRequest ⟨mn, t1, mt1⟩ prompt = callRequest ⟨mn, t2, mt2⟩ prompt ∧
    callRequest ⟨mn, t1, mt1⟩ prompt
      = ⟨"SELECT snowflake.cortex.complete(?, ?)", [mn, prompt]⟩ :=
  ⟨rfl, rfl, rfl, rfl⟩

end BadScientist
